import Mathlib

/-!
Verification development for the stock-screener quantitative analyzer
(`analyzer.py`).  The engine is embedded shallowly:

* pandas/NumPy float cells are modelled by `Val` — an exact rational
  together with the special values `+inf`, `-inf` and `nan`, with the
  IEEE-style operation tables that pandas/NumPy use on the operations the
  source performs (in particular `x / 0 = +inf` for `x > 0`, `0 / 0 = nan`,
  and every comparison involving `nan` is false);
* each derived DataFrame column of `calculate_indicators` becomes a
  `List Val` (or `List Bool`) produced by the same recurrences
  (`ewm(adjust=False)`, `rolling`, `diff`, `shift`, `np.maximum`, …);
* the augmented frame becomes a `List Row`, and `QuantAnalyzer.analyze`
  becomes the total function `analyze : Mode → List Bar → Option
  SupplySnapshot → AnalyzeOutput`;
* the human-readable signal strings are represented by the inductive type
  `Signal`, one constructor per `signals.append` site of the source, carrying
  the numeric payloads that the source interpolates into the string.
-/

set_option maxRecDepth 8000
set_option maxHeartbeats 4000000

/-- A pandas/NumPy float cell: an exact rational, `+inf`, `-inf`, or `nan`. -/
inductive Val where
  | num (q : ℚ)
  | pinf
  | ninf
  | nan
deriving DecidableEq, Repr

namespace Val

/-- IEEE-style addition as performed by pandas: `nan` absorbs, opposite
infinities give `nan`. -/
def add : Val → Val → Val
  | num a, num b => num (a + b)
  | num _, pinf => pinf
  | pinf, num _ => pinf
  | pinf, pinf => pinf
  | num _, ninf => ninf
  | ninf, num _ => ninf
  | ninf, ninf => ninf
  | _, _ => nan

/-- IEEE-style negation. -/
def neg : Val → Val
  | num a => num (-a)
  | pinf => ninf
  | ninf => pinf
  | nan => nan

/-- IEEE-style subtraction. -/
def sub (a b : Val) : Val := add a (neg b)

/-- IEEE-style multiplication: `inf * 0 = nan`. -/
def mul : Val → Val → Val
  | num a, num b => num (a * b)
  | num a, pinf => if 0 < a then pinf else if a < 0 then ninf else nan
  | pinf, num a => if 0 < a then pinf else if a < 0 then ninf else nan
  | num a, ninf => if 0 < a then ninf else if a < 0 then pinf else nan
  | ninf, num a => if 0 < a then ninf else if a < 0 then pinf else nan
  | pinf, pinf => pinf
  | ninf, ninf => pinf
  | pinf, ninf => ninf
  | ninf, pinf => ninf
  | _, _ => nan

/-- Division parameterized by the host convention for `finite / 0`.
The parameter makes it possible to state that a computation does or does
not depend on the host division-by-zero semantics. -/
def divW (dz : ℚ → Val) : Val → Val → Val
  | num a, num b => if b = 0 then dz a else num (a / b)
  | num _, pinf => num 0
  | num _, ninf => num 0
  | pinf, num b => if b < 0 then ninf else pinf
  | ninf, num b => if b < 0 then pinf else ninf
  | _, _ => nan

/-- The IEEE / NumPy convention for `finite / 0`: sign-dependent infinity,
`0 / 0 = nan`. -/
def numDivZero (a : ℚ) : Val := if 0 < a then pinf else if a < 0 then ninf else nan

/-- Division with the NumPy convention, as pandas performs it. -/
def div : Val → Val → Val := divW numDivZero

/-- IEEE `<`: any comparison involving `nan` is false. -/
def lt : Val → Val → Bool
  | num a, num b => decide (a < b)
  | num _, pinf => true
  | ninf, num _ => true
  | ninf, pinf => true
  | _, _ => false

/-- IEEE `≤`: any comparison involving `nan` is false. -/
def le : Val → Val → Bool
  | num a, num b => decide (a ≤ b)
  | num _, pinf => true
  | ninf, num _ => true
  | ninf, pinf => true
  | ninf, ninf => true
  | pinf, pinf => true
  | _, _ => false

/-- IEEE `>`. -/
def gt (a b : Val) : Bool := lt b a

/-- IEEE `≥`. -/
def ge (a b : Val) : Bool := le b a

/-- Python's builtin `min(a, b)` (returns `b` if `b < a` else `a`). -/
def pyMin (a b : Val) : Val := if lt b a then b else a

/-- `np.maximum`: propagates `nan`, otherwise the larger value. -/
def npMax (a b : Val) : Val :=
  match a, b with
  | nan, _ => nan
  | _, nan => nan
  | x, y => if le x y then y else x

/-- IEEE absolute value. -/
def vabs : Val → Val
  | num a => num |a|
  | pinf => pinf
  | ninf => pinf
  | nan => nan

/-- `pd.isna`-compatible extraction: `some q` for a finite value, `none`
for `nan` (infinities do not occur where this is used). -/
def toOption : Val → Option ℚ
  | num q => some q
  | _ => none

end Val

/-- Banker's rounding (round half to even) of a rational to an integer,
matching Python's `round`. -/
def roundHalfEven (x : ℚ) : ℤ :=
  let f := x.floor
  let r := x - (f : ℚ)
  if r < 1 / 2 then f
  else if 1 / 2 < r then f + 1
  else if f % 2 = 0 then f else f + 1

/-- Python's `round(x, 2)` on an idealized (exact rational) float. -/
def round2 (x : ℚ) : ℚ := (roundHalfEven (x * 100) : ℚ) / 100

/-- `round(·, 2)` lifted to float cells (`round` maps `nan`/`inf` to themselves). -/
def Val.round2v : Val → Val
  | Val.num q => Val.num (round2 q)
  | v => v

/-! ### Series primitives

The pandas building blocks used by `calculate_indicators`, over `List Val`
columns in chronological order. -/

/-- `Series.shift(1)`: a leading `nan`, last element dropped. -/
def shift1 (xs : List Val) : List Val := (Val.nan :: xs).take xs.length

/-- `Series.shift(2)`: two leading `nan`s. -/
def shift2 (xs : List Val) : List Val := (Val.nan :: Val.nan :: xs).take xs.length

/-- `Series.shift(1)` on a boolean column: pandas yields `nan` in the first
slot, which the subsequent `&` treats as `False`. -/
def boolShift1 (bs : List Bool) : List Bool := (false :: bs).take bs.length

/-- Worker for `ewm(adjust=False).mean()`: the state is the last emitted
mean (`none` while only `nan`s have been seen).  The first finite value
seeds the recurrence; afterwards `y = a * x + (1 - a) * y`. -/
def ewmMeanGo (a : ℚ) : Option ℚ → List Val → List Val
  | _, [] => []
  | none, Val.num q :: rest => Val.num q :: ewmMeanGo a (some q) rest
  | none, _ :: rest => Val.nan :: ewmMeanGo a none rest
  | some p, Val.num q :: rest =>
      Val.num (a * q + (1 - a) * p) :: ewmMeanGo a (some (a * q + (1 - a) * p)) rest
  | some p, _ :: rest => Val.num p :: ewmMeanGo a (some p) rest

/-- `Series.ewm(alpha=a, adjust=False).mean()`. -/
def ewmMean (a : ℚ) (xs : List Val) : List Val := ewmMeanGo a none xs

/-- Collect the rationals of a window, failing if any cell is not finite. -/
def allNums : List Val → Option (List ℚ)
  | [] => some []
  | Val.num q :: rest => (allNums rest).map (fun l => q :: l)
  | _ :: _ => none

/-- `Series.rolling(w)` with an aggregator: `nan` until `w` samples exist
or if the window contains a non-finite cell (pandas `min_periods = w`). -/
def rollingAgg (w : Nat) (f : List ℚ → ℚ) (xs : List Val) : List Val :=
  (List.range xs.length).map fun i =>
    if i + 1 < w then Val.nan
    else
      match allNums ((xs.drop (i + 1 - w)).take w) with
      | some qs => Val.num (f qs)
      | none => Val.nan

/-- `rolling(w).mean()`. -/
def rollingMean (w : Nat) (xs : List Val) : List Val :=
  rollingAgg w (fun qs => qs.foldl (· + ·) 0 / (w : ℚ)) xs

/-- `rolling(w).max()`. -/
def rollingMax (w : Nat) (xs : List Val) : List Val :=
  rollingAgg w (fun qs => qs.foldl max (qs.headD 0)) xs

/-- `rolling(w).min()`. -/
def rollingMin (w : Nat) (xs : List Val) : List Val :=
  rollingAgg w (fun qs => qs.foldl min (qs.headD 0)) xs

/-- `Series.diff()`: `x_t - x_(t-1)`, `nan` in the first slot. -/
def diffCol (xs : List Val) : List Val := List.zipWith Val.sub xs (shift1 xs)

/-- `Series.replace(0, np.nan)`. -/
def replaceZeroNan (xs : List Val) : List Val :=
  xs.map fun v => if v = Val.num 0 then Val.nan else v

/-! ### Data model -/

/-- One raw OHLCV bar.  `date` is an abstract trading-day identifier used
as the key of the exact-turnover map. -/
structure Bar where
  date : Nat
  openPrice : ℚ
  high : ℚ
  low : ℚ
  close : ℚ
  volume : ℚ
deriving DecidableEq, Repr

/-- One entry of `supply_data["investor_trend"]`. -/
structure InvestorDay where
  foreignNet : ℤ
  institutionNet : ℤ
deriving DecidableEq, Repr

/-- `supply_data["short_balance"]["today"]` with the three fields
`_score_supply` reads (a missing key defaults to 0 at the source). -/
structure ShortToday where
  volRlim : ℚ
  pbmnRlim : ℚ
  cntgQty : ℤ
deriving DecidableEq, Repr

/-- The supply/demand snapshot.  An absent / falsy `supply_data` dict is
modelled as `none` at the use sites; this structure is the truthy dict,
each field of which may still be empty.  `shortToday` is
`short_balance.get("today")` (`none` for a missing or empty dict). -/
structure SupplySnapshot where
  investorTrend : List InvestorDay
  shortToday : Option ShortToday
  tradeValueMap : List (Nat × ℚ)
deriving DecidableEq, Repr

/-- The exact-turnover map of the snapshot (`{}` when the snapshot is absent). -/
def tvMap : Option SupplySnapshot → List (Nat × ℚ)
  | none => []
  | some s => s.tradeValueMap

/-! ### Indicator pipeline (`calculate_indicators`)

Each definition below is one derived column of the source, in source
order.  Raw columns carry no `nan`, so they are lifted from `ℚ`. -/

/-- Lift a raw rational column to float cells. -/
def liftCol (xs : List ℚ) : List Val := xs.map Val.num

def closeValCol (bars : List Bar) : List Val := liftCol (bars.map (fun b => b.close))

def openValCol (bars : List Bar) : List Val := liftCol (bars.map (fun b => b.openPrice))

def highValCol (bars : List Bar) : List Val := liftCol (bars.map (fun b => b.high))

def lowValCol (bars : List Bar) : List Val := liftCol (bars.map (fun b => b.low))

def volValCol (bars : List Bar) : List Val := liftCol (bars.map (fun b => b.volume))

/-- `EMA_21 = Close.ewm(span=21, adjust=False).mean()` (alpha = 2/(21+1)). -/
def ema21Col (bars : List Bar) : List Val := ewmMean (2 / 22) (closeValCol bars)

/-- `EMA_50`. -/
def ema50Col (bars : List Bar) : List Val := ewmMean (2 / 51) (closeValCol bars)

/-- `EMA_200`. -/
def ema200Col (bars : List Bar) : List Val := ewmMean (2 / 201) (closeValCol bars)

/-- `SMA_50 = Close.rolling(window=50).mean()`. -/
def sma50Col (bars : List Bar) : List Val := rollingMean 50 (closeValCol bars)

/-- `delta = Close.diff()`. -/
def deltaCol (bars : List Bar) : List Val := diffCol (closeValCol bars)

/-- `delta.where(delta > 0, 0)` (the `nan` in the first slot compares
false and becomes 0). -/
def gainInCol (bars : List Bar) : List Val :=
  (deltaCol bars).map fun v => if Val.gt v (Val.num 0) then v else Val.num 0

/-- `-delta.where(delta < 0, 0)`. -/
def lossInCol (bars : List Bar) : List Val :=
  (deltaCol bars).map fun v => if Val.lt v (Val.num 0) then Val.neg v else Val.num 0

/-- Wilder-smoothed gain: `gain.ewm(alpha=1/14, adjust=False).mean()`. -/
def gainCol (bars : List Bar) : List Val := ewmMean (1 / 14) (gainInCol bars)

/-- Wilder-smoothed loss. -/
def lossCol (bars : List Bar) : List Val := ewmMean (1 / 14) (lossInCol bars)

/-- `rs = gain / loss`, with the host division-by-zero convention `dz`
as a parameter (the source performs a plain pandas division here and
inherits whatever the host does at `loss = 0`). -/
def rsColW (dz : ℚ → Val) (bars : List Bar) : List Val :=
  List.zipWith (Val.divW dz) (gainCol bars) (lossCol bars)

/-- `RSI = 100 - 100/(1+rs)` for a single cell, same host convention. -/
def rsiOfW (dz : ℚ → Val) (r : Val) : Val :=
  Val.sub (Val.num 100) (Val.divW dz (Val.num 100) (Val.add (Val.num 1) r))

/-- `RSI_14` with the host division convention `dz` left abstract. -/
def rsiColWith (dz : ℚ → Val) (bars : List Bar) : List Val :=
  (rsColW dz bars).map (rsiOfW dz)

/-- `RSI_14` as the source computes it: NumPy division semantics
(`gain/0 = +inf` for positive gain, `0/0 = nan`). -/
def rsiCol (bars : List Bar) : List Val := rsiColWith Val.numDivZero bars

/-- `TR = np.maximum(High－Low, np.maximum(|High－prevClose|, |Low－prevClose|))`
(`np.maximum` propagates the `nan` of the first shifted slot). -/
def trCol (bars : List Bar) : List Val :=
  List.zipWith Val.npMax
    (List.zipWith Val.sub (highValCol bars) (lowValCol bars))
    (List.zipWith Val.npMax
      ((List.zipWith Val.sub (highValCol bars) (shift1 (closeValCol bars))).map Val.vabs)
      ((List.zipWith Val.sub (lowValCol bars) (shift1 (closeValCol bars))).map Val.vabs))

/-- `ATR_14 = TR.ewm(alpha=1/14, adjust=False).mean()`. -/
def atrCol (bars : List Bar) : List Val := ewmMean (1 / 14) (trCol bars)

/-- `Vol_SMA_20 = Volume.rolling(window=20).mean()`. -/
def volSma20Col (bars : List Bar) : List Val := rollingMean 20 (volValCol bars)

/-- `trading_value`: the exact turnover from the KIS map when the date is
present, else the approximation `Close * Volume`.  (The source branches on
the map being empty, but the per-date fallback makes both branches this
same function.) -/
def tradingValueCol (s : Option SupplySnapshot) (bars : List Bar) : List ℚ :=
  bars.map fun b =>
    match (tvMap s).lookup b.date with
    | some v => v
    | none => b.close * b.volume

/-- `value_sma_20 = trading_value.rolling(20).mean()`. -/
def valueSma20Col (s : Option SupplySnapshot) (bars : List Bar) : List Val :=
  rollingMean 20 (liftCol (tradingValueCol s bars))

/-- `value_ratio = trading_value / value_sma_20.replace(0, np.nan)`. -/
def vrCol (s : Option SupplySnapshot) (bars : List Bar) : List Val :=
  List.zipWith Val.div (liftCol (tradingValueCol s bars))
    (replaceZeroNan (valueSma20Col s bars))

/-- `value_ok = value_ratio >= 1.5`. -/
def valueOkCol (s : Option SupplySnapshot) (bars : List Bar) : List Bool :=
  (vrCol s bars).map fun v => Val.ge v (Val.num (1.5 : ℚ))

/-- `value_dry = value_ratio <= 0.7`. -/
def valueDryCol (s : Option SupplySnapshot) (bars : List Bar) : List Bool :=
  (vrCol s bars).map fun v => Val.le v (Val.num (0.7 : ℚ))

/-- `value_dry_3 = value_dry.rolling(3).min().astype(bool)`: the rolling
min over booleans is 1 iff all three are true; the two leading `nan`s
become `True` under `astype(bool)`. -/
def valueDry3Col (s : Option SupplySnapshot) (bars : List Bar) : List Bool :=
  let dry := valueDryCol s bars
  (List.range dry.length).map fun i =>
    if i < 2 then true
    else dry.getD (i - 2) false && dry.getD (i - 1) false && dry.getD i false

/-- `MACD = ema_12 - ema_26`. -/
def macdCol (bars : List Bar) : List Val :=
  List.zipWith Val.sub (ewmMean (2 / 13) (closeValCol bars))
    (ewmMean (2 / 27) (closeValCol bars))

/-- `MACD_Signal = MACD.ewm(span=9, adjust=False).mean()`. -/
def macdSignalCol (bars : List Bar) : List Val := ewmMean (2 / 10) (macdCol bars)

/-- `MACD_Hist = MACD - MACD_Signal`. -/
def macdHistCol (bars : List Bar) : List Val :=
  List.zipWith Val.sub (macdCol bars) (macdSignalCol bars)

/-- `recent_range = High.rolling(5).max() - Low.rolling(5).min()`. -/
def recentRangeCol (bars : List Bar) : List Val :=
  List.zipWith Val.sub (rollingMax 5 (highValCol bars)) (rollingMin 5 (lowValCol bars))

/-- `vcp_tight = recent_range < ATR_14 * 1.5`. -/
def vcpTightCol (bars : List Bar) : List Bool :=
  List.zipWith (fun r a => Val.lt r (Val.mul a (Val.num (1.5 : ℚ))))
    (recentRangeCol bars) (atrCol bars)

/-- `extAtr = (Close - SMA_50) / ATR_14.replace(0, np.nan)`. -/
def extAtrCol (bars : List Bar) : List Val :=
  List.zipWith Val.div
    (List.zipWith Val.sub (closeValCol bars) (sma50Col bars))
    (replaceZeroNan (atrCol bars))

/-- `trend_short = (Close > EMA_21) | (EMA_21 > EMA_50)`. -/
def trendShortCol (bars : List Bar) : List Bool :=
  List.zipWith (· || ·)
    (List.zipWith Val.gt (closeValCol bars) (ema21Col bars))
    (List.zipWith Val.gt (ema21Col bars) (ema50Col bars))

/-- `trend_swing = (EMA_21 > EMA_50) & (EMA_50 > EMA_200)`. -/
def trendSwingCol (bars : List Bar) : List Bool :=
  List.zipWith (· && ·)
    (List.zipWith Val.gt (ema21Col bars) (ema50Col bars))
    (List.zipWith Val.gt (ema50Col bars) (ema200Col bars))

/-- `near_ema21 = (Low <= EMA_21*1.005) & (Low >= EMA_21*(1-(ATR_14/Close)*1.5))`. -/
def nearEma21Col (bars : List Bar) : List Bool :=
  List.zipWith (· && ·)
    (List.zipWith (fun l e => Val.le l (Val.mul e (Val.num (1.005 : ℚ))))
      (lowValCol bars) (ema21Col bars))
    (List.zipWith (fun l band => Val.ge l band)
      (lowValCol bars)
      (List.zipWith Val.mul (ema21Col bars)
        ((List.zipWith Val.div (atrCol bars) (closeValCol bars)).map
          (fun x => Val.sub (Val.num 1) (Val.mul x (Val.num (1.5 : ℚ)))))))

/-- `bullish_candle = Close > Open`. -/
def bullishCol (bars : List Bar) : List Bool :=
  bars.map fun b => decide (b.openPrice < b.close)

/-- `bounce = Close > Close.shift(1)`. -/
def bounceCol (bars : List Bar) : List Bool :=
  List.zipWith Val.gt (closeValCol bars) (shift1 (closeValCol bars))

/-- `rsi_ok = RSI_14 >= 50`. -/
def rsiOkCol (bars : List Bar) : List Bool :=
  (rsiCol bars).map fun r => Val.ge r (Val.num 50)

/-- `vol_ok = Volume >= Vol_SMA_20 * 1.0`. -/
def volOkCol (bars : List Bar) : List Bool :=
  List.zipWith (fun v s => Val.ge v (Val.mul s (Val.num 1)))
    (volValCol bars) (volSma20Col bars)

/-- `ema21_slope = EMA_21 > EMA_21.shift(2)` (computed by the source but
consumed nowhere downstream). -/
def ema21SlopeCol (bars : List Bar) : List Bool :=
  List.zipWith Val.gt (ema21Col bars) (shift2 (ema21Col bars))

/-- `macd_improving = MACD_Hist > MACD_Hist.shift(1)`. -/
def macdImprovingCol (bars : List Bar) : List Bool :=
  List.zipWith Val.gt (macdHistCol bars) (shift1 (macdHistCol bars))

/-- `buy_short = near_ema21 & bullish_candle & bounce & rsi_ok & vol_ok & trend_short`. -/
def buyShortCol (bars : List Bar) : List Bool :=
  List.zipWith (· && ·) (nearEma21Col bars)
    (List.zipWith (· && ·) (bullishCol bars)
      (List.zipWith (· && ·) (bounceCol bars)
        (List.zipWith (· && ·) (rsiOkCol bars)
          (List.zipWith (· && ·) (volOkCol bars) (trendShortCol bars)))))

/-- `buy_swing_macd = near_ema21 & bullish_candle & bounce & value_ok &
trend_swing & macd_improving`. -/
def buySwingMacdCol (s : Option SupplySnapshot) (bars : List Bar) : List Bool :=
  List.zipWith (· && ·) (nearEma21Col bars)
    (List.zipWith (· && ·) (bullishCol bars)
      (List.zipWith (· && ·) (bounceCol bars)
        (List.zipWith (· && ·) (valueOkCol s bars)
          (List.zipWith (· && ·) (trendSwingCol bars) (macdImprovingCol bars)))))

/-- `buy_swing_vcp = near_ema21 & bullish_candle & bounce & trend_swing &
vcp_tight.shift(1) & value_dry_3.shift(1)`. -/
def buySwingVcpCol (s : Option SupplySnapshot) (bars : List Bar) : List Bool :=
  List.zipWith (· && ·) (nearEma21Col bars)
    (List.zipWith (· && ·) (bullishCol bars)
      (List.zipWith (· && ·) (bounceCol bars)
        (List.zipWith (· && ·) (trendSwingCol bars)
          (List.zipWith (· && ·) (boolShift1 (vcpTightCol bars))
            (boolShift1 (valueDry3Col s bars))))))

/-- One row of the augmented frame: the raw bar plus the derived cells
that `analyze` and `_score_supply` read. -/
structure Row where
  openPrice : ℚ
  high : ℚ
  low : ℚ
  close : ℚ
  volume : ℚ
  ema21 : Val
  ema50 : Val
  ema200 : Val
  sma50 : Val
  rsi : Val
  atr : Val
  volSma20 : Val
  /-- the `value_ratio` cell -/
  vr : Val
  macdHist : Val
  extAtr : Val
  buyShort : Bool
  buySwingMacd : Bool
  buySwingVcp : Bool
deriving DecidableEq, Repr

/-- Placeholder bar for out-of-range `getD` (never reached by `analyze`). -/
def defaultBar : Bar := ⟨0, 0, 0, 0, 0, 0⟩

/-- Placeholder row for out-of-range `getD` (never reached by `analyze`). -/
def defaultRow : Row :=
  { openPrice := 0, high := 0, low := 0, close := 0, volume := 0
    ema21 := Val.nan, ema50 := Val.nan, ema200 := Val.nan, sma50 := Val.nan
    rsi := Val.nan, atr := Val.nan, volSma20 := Val.nan, vr := Val.nan
    macdHist := Val.nan, extAtr := Val.nan
    buyShort := false, buySwingMacd := false, buySwingVcp := false }

/-- Row `i` of the augmented frame. -/
def mkRow (s : Option SupplySnapshot) (bars : List Bar) (i : Nat) : Row :=
  let b := bars.getD i defaultBar
  { openPrice := b.openPrice, high := b.high, low := b.low, close := b.close
    volume := b.volume
    ema21 := (ema21Col bars).getD i Val.nan
    ema50 := (ema50Col bars).getD i Val.nan
    ema200 := (ema200Col bars).getD i Val.nan
    sma50 := (sma50Col bars).getD i Val.nan
    rsi := (rsiCol bars).getD i Val.nan
    atr := (atrCol bars).getD i Val.nan
    volSma20 := (volSma20Col bars).getD i Val.nan
    vr := (vrCol s bars).getD i Val.nan
    macdHist := (macdHistCol bars).getD i Val.nan
    extAtr := (extAtrCol bars).getD i Val.nan
    buyShort := (buyShortCol bars).getD i false
    buySwingMacd := (buySwingMacdCol s bars).getD i false
    buySwingVcp := (buySwingVcpCol s bars).getD i false }

/-- `QuantAnalyzer.calculate_indicators`: the augmented frame, one `Row`
per input bar.  (The trailing-150-bar high/low that the source stores on
`self` in fibonacci mode is computed by the fibonacci branch of `analyze`
below, from the same raw columns.) -/
def calculateIndicators (s : Option SupplySnapshot) (bars : List Bar) : List Row :=
  (List.range bars.length).map (mkRow s bars)

/-! ### Signals

One constructor per `signals.append` (or `technicals.append`) site of
the source, carrying the numeric payloads the string interpolates. -/

/-- Entries of the swing mode `technicals` list. -/
inductive Technical where
  /-- "완벽한 정배열(+15)" -/
  | perfectAlignment
  /-- "거래량 평균 이상(+5)" -/
  | volumeAboveAvg
  /-- "거래대금 N배 폭발(+15)" -/
  | valueExplosive (vr : Val)
  /-- "거래대금 N배(+10)" -/
  | valueStrong (vr : Val)
  /-- "RSI 매수 우위(+10)" -/
  | rsiFavorable
  /-- "MACD 상승 모멘텀(+10)" -/
  | macdMomentum
deriving DecidableEq, Repr

/-- The human-readable signal strings of `analyze` and `_score_supply`. -/
inductive Signal where
  /-- swing: RSI > 70 overbought warning -/
  | rsiOverbought
  /-- swing: the "[기술적 분석] …" summary of the technicals list -/
  | techSummary (ts : List Technical)
  /-- swing scan: "N중첩 콤보" multi-pattern signal -/
  | comboHit (comboCount : Nat) (daysAgo : Nat)
  /-- swing scan: VCP entry signal with entry/target/stop prices -/
  | vcpEntry (daysAgo : Nat) (entry : ℚ) (target stop : Val) (vrText : Option ℚ)
  /-- swing scan: MACD swing entry signal -/
  | macdEntry (daysAgo : Nat) (entry : ℚ) (target stop : Val) (vrText : Option ℚ)
  /-- swing scan: short-term bounce entry signal -/
  | shortEntry (daysAgo : Nat) (entry : ℚ) (target stop : Val)
  /-- swing scan: "최근 30일 내 뚜렷한 매수 타점이 없습니다." -/
  | noRecentEntry
  /-- swing ATR overlay: extAtr ≥ 7 overheat warning (−30) -/
  | atrOverheatWarning (x : Val)
  /-- swing ATR overlay: extAtr ≤ −7 bottom opportunity (+15) -/
  | atrBottomOpportunity (x : Val)
  /-- atr mode header -/
  | atrHeader
  /-- atr mode: "데이터 부족으로 ATR 계산 불가." -/
  | atrInsufficientData
  /-- atr mode: the "N ATR 이격" gap read-out -/
  | atrGap (x : Val)
  /-- atr mode score-0 bucket -/
  | atrForbid
  /-- atr mode score-90 bucket -/
  | atrLifeBottom
  /-- atr mode score-30 bucket -/
  | atrMildOverheat
  /-- atr mode score-70 bucket -/
  | atrOversold
  /-- atr mode score-50 bucket -/
  | atrNormalTrack
  /-- fibonacci header with the rounded 150-bar high -/
  | fibHeader (high : ℚ)
  /-- fibonacci 0.236 bucket (score 80) -/
  | fibRetest
  /-- fibonacci 0.382 bucket (score 70) -/
  | fibIdealPullback
  /-- fibonacci 0.500 bucket (score 50) -/
  | fibCrossroad
  /-- fibonacci 0.618 bucket (score 30) -/
  | fibLastLine
  /-- fibonacci breakdown bucket (score 10) -/
  | fibBreakdown
  /-- supply: foreign + institution both buying today (+20) -/
  | doubleBuy (f i : ℤ)
  /-- supply: foreign net buying 3 consecutive days (+15) -/
  | foreignStreak (f : ℤ)
  /-- supply: foreign net buying today (+8) -/
  | foreignBuyToday (f : ℤ)
  /-- supply: institution net buying today (+10) -/
  | institutionBuyToday (i : ℤ)
  /-- supply: foreign + institution both selling (−20) -/
  | doubleSellWarning
  /-- supply: foreign net selling today (−10) -/
  | foreignSellToday (f : ℤ)
  /-- supply: short-sell volume share ≥ 10% (−15) -/
  | shortSellRisk (volR : ℚ) (qty : ℤ)
  /-- supply: short-sell volume share ≥ 5% (−8) -/
  | shortSellCaution (volR : ℚ)
  /-- supply: short-sell volume share ≥ 2% (−3) -/
  | shortSellLow (volR : ℚ)
  /-- supply: short-sell value share exceeds volume share + 2 (no delta) -/
  | shortPbmnWarning (pbmn volR : ℚ)
  /-- supply: turnover ≥ 2× on a bullish candle (+15) -/
  | valueExplosion (vr : Val)
  /-- supply: turnover ≥ 1.5× on a bullish candle (+8) -/
  | valueIncrease (vr : Val)
  /-- supply: turnover ≥ 2× on a non-bullish candle (−10) -/
  | valueDistribution (vr : Val)
deriving DecidableEq, Repr

/-! ### Supply scorer (`_score_supply`) -/

/-- The investor-trend block: `trend[-3:]`, `trend[-1]`, and the six
conditional deltas in source order. -/
def trendBlock (trend : List InvestorDay) : Int × List Signal :=
  match trend.getLast? with
  | none => (0, [])
  | some today =>
    let recent := trend.drop (trend.length - 3)
    let foreignConsecutive :=
      recent.length = 3 && recent.all (fun d => decide (0 < d.foreignNet))
    let institutionToday := decide (0 < today.institutionNet)
    let bothBuying := decide (0 < today.foreignNet) && decide (0 < today.institutionNet)
    let buyPart : Int × List Signal :=
      if bothBuying then (20, [Signal.doubleBuy today.foreignNet today.institutionNet])
      else if foreignConsecutive then (15, [Signal.foreignStreak today.foreignNet])
      else if 0 < today.foreignNet then (8, [Signal.foreignBuyToday today.foreignNet])
      else (0, [])
    let instPart : Int × List Signal :=
      if institutionToday && !bothBuying then
        (10, [Signal.institutionBuyToday today.institutionNet])
      else (0, [])
    let sellPart : Int × List Signal :=
      if today.foreignNet < 0 && today.institutionNet < 0 then
        (-20, [Signal.doubleSellWarning])
      else if today.foreignNet < 0 then (-10, [Signal.foreignSellToday today.foreignNet])
      else (0, [])
    (buyPart.1 + instPart.1 + sellPart.1, buyPart.2 ++ instPart.2 ++ sellPart.2)

/-- The short-balance block: tiers on the short-sell volume share, then
the value-share warning. -/
def shortBlock : Option ShortToday → Int × List Signal
  | none => (0, [])
  | some t =>
    let tier : Int × List Signal :=
      if (10 : ℚ) ≤ t.volRlim then (-15, [Signal.shortSellRisk t.volRlim t.cntgQty])
      else if (5 : ℚ) ≤ t.volRlim then (-8, [Signal.shortSellCaution t.volRlim])
      else if (2 : ℚ) ≤ t.volRlim then (-3, [Signal.shortSellLow t.volRlim])
      else (0, [])
    (tier.1,
      tier.2 ++
        if t.volRlim + 2 < t.pbmnRlim then [Signal.shortPbmnWarning t.pbmnRlim t.volRlim]
        else [])

/-- The turnover block applied to the latest bar's `value_ratio` cell and
candle direction (`Close > Open`, strict). -/
def valueBlockOf (vr : Val) (bullish : Bool) : Int × List Signal :=
  if Val.ge vr (Val.num 2) && bullish then (15, [Signal.valueExplosion vr])
  else if Val.ge vr (Val.num (1.5 : ℚ)) && bullish then (8, [Signal.valueIncrease vr])
  else if Val.ge vr (Val.num 2) && !bullish then (-10, [Signal.valueDistribution vr])
  else (0, [])

/-- The turnover block of `_score_supply`: gated on a non-empty frame
(the `value_ratio` column always exists once `calculate_indicators` ran),
reading the latest row of the *indicator* frame — not the snapshot. -/
def valueBlock (rows : List Row) : Int × List Signal :=
  match rows.getLast? with
  | none => (0, [])
  | some r => valueBlockOf r.vr (decide (r.openPrice < r.close))

/-- `QuantAnalyzer._score_supply`: an absent/falsy `supply_data` dict
short-circuits to `(0, [])`; otherwise the three blocks run in source
order and their deltas and signals are combined. -/
def scoreSupply (supply : Option SupplySnapshot) (rows : List Row) : Int × List Signal :=
  match supply with
  | none => (0, [])
  | some s =>
    let t := trendBlock s.investorTrend
    let sh := shortBlock s.shortToday
    let v := valueBlock rows
    (t.1 + sh.1 + v.1, t.2 ++ sh.2 ++ v.2)

/-! ### Swing mode scoring -/

/-- +15 for a perfect EMA alignment, else +5 for EMA21 > EMA50. -/
def emaAlignDelta (cur : Row) : Int :=
  if Val.gt cur.ema21 cur.ema50 && Val.gt cur.ema50 cur.ema200 then 15
  else if Val.gt cur.ema21 cur.ema50 then 5
  else 0

/-- The volume strength tier: +5 when `Volume >= Vol_SMA_20`. -/
def volumeDelta (cur : Row) : Int :=
  if Val.ge (Val.num cur.volume) cur.volSma20 then 5 else 0

/-- The turnover strength tier: +15 for `value_ratio ≥ 2`, else +10 for `≥ 1.5`. -/
def valueTierDelta (cur : Row) : Int :=
  if Val.ge cur.vr (Val.num 2) then 15
  else if Val.ge cur.vr (Val.num (1.5 : ℚ)) then 10
  else 0

/-- +10 for RSI in [50, 70], −15 for RSI > 70 (with a warning signal). -/
def rsiDelta (cur : Row) : Int :=
  if Val.le (Val.num 50) cur.rsi && Val.le cur.rsi (Val.num 70) then 10
  else if Val.gt cur.rsi (Val.num 70) then -15
  else 0

/-- +10 when the MACD histogram rose versus the previous bar. -/
def macdDelta (cur prev : Row) : Int :=
  if Val.gt cur.macdHist prev.macdHist then 10 else 0

/-- The swing `base_score`, 30 plus the five deltas of the source. -/
def baseScore (cur prev : Row) : Int :=
  30 + emaAlignDelta cur + volumeDelta cur + valueTierDelta cur + rsiDelta cur +
    macdDelta cur prev

/-- The `technicals` list, in the append order of the source. -/
def swingTechnicals (cur prev : Row) : List Technical :=
  (if Val.gt cur.ema21 cur.ema50 && Val.gt cur.ema50 cur.ema200 then
    [Technical.perfectAlignment] else []) ++
  (if Val.ge (Val.num cur.volume) cur.volSma20 then [Technical.volumeAboveAvg] else []) ++
  (if Val.ge cur.vr (Val.num 2) then [Technical.valueExplosive cur.vr]
   else if Val.ge cur.vr (Val.num (1.5 : ℚ)) then [Technical.valueStrong cur.vr]
   else []) ++
  (if Val.le (Val.num 50) cur.rsi && Val.le cur.rsi (Val.num 70) then
    [Technical.rsiFavorable] else []) ++
  (if Val.gt cur.macdHist prev.macdHist then [Technical.macdMomentum] else [])

/-- The signals appended while computing the base score: the overbought
warning (appended inside the RSI branch), then the technicals summary. -/
def baseSignals (cur prev : Row) : List Signal :=
  (if !(Val.le (Val.num 50) cur.rsi && Val.le cur.rsi (Val.num 70)) &&
      Val.gt cur.rsi (Val.num 70) then [Signal.rsiOverbought] else []) ++
  (match swingTechnicals cur prev with
   | [] => []
   | ts => [Signal.techSummary ts])

/-- A bar on which at least one buy-signal variant fires. -/
def hitAny (r : Row) : Bool := r.buySwingVcp || r.buySwingMacd || r.buyShort

/-- `combo_count`: the number of buy-signal variants true on the bar. -/
def comboCountOf (r : Row) : Nat :=
  (if r.buySwingVcp then 1 else 0) + (if r.buySwingMacd then 1 else 0) +
    (if r.buyShort then 1 else 0)

/-- `stop = round(min(Low, EMA_21) * 0.99, 2)`. -/
def stopPrice (r : Row) : Val :=
  Val.round2v (Val.mul (Val.pyMin (Val.num r.low) r.ema21) (Val.num (0.99 : ℚ)))

/-- The score contribution of the qualifying bar: `combo_count * 15`, but
only when the qualifying bar is the most recent one (`days_ago == 0`). -/
def hitDelta (r : Row) (daysAgo : Nat) : Int :=
  if daysAgo = 0 then (comboCountOf r : Int) * 15 else 0

/-- The signals emitted for the qualifying bar, in source order: the
multi-pattern combo signal when more than one variant fired, the VCP
signal, the MACD signal, and the short-term signal — the latter only when
neither VCP nor MACD fired on the same bar. -/
def hitSignals (r : Row) (daysAgo : Nat) : List Signal :=
  (if 1 < comboCountOf r then [Signal.comboHit (comboCountOf r) daysAgo] else []) ++
  (if r.buySwingVcp then
    [Signal.vcpEntry daysAgo (round2 r.close)
      (Val.round2v (Val.add (Val.num r.close) (Val.mul r.atr (Val.num 3))))
      (stopPrice r) r.vr.toOption]
   else []) ++
  (if r.buySwingMacd then
    [Signal.macdEntry daysAgo (round2 r.close)
      (Val.round2v (Val.add (Val.num r.close) (Val.mul r.atr (Val.num 2))))
      (stopPrice r) r.vr.toOption]
   else []) ++
  (if r.buyShort && !(r.buySwingVcp || r.buySwingMacd) then
    [Signal.shortEntry daysAgo (round2 r.close)
      (Val.round2v (Val.add (Val.num r.close) (Val.mul r.atr (Val.num (1.5 : ℚ)))))
      (stopPrice r)]
   else [])

/-- The backward scan loop over the reversed frame: `d` is `days_ago`;
the loop breaks once `days_ago > 30`, and stops at the first qualifying
bar, returning its delta and signals and the `recent_signal_found` flag. -/
def scanGo : List Row → Nat → Int × List Signal × Bool
  | [], _ => (0, [], false)
  | r :: rest, d =>
    if 30 < d then (0, [], false)
    else if hitAny r then (hitDelta r d, hitSignals r d, true)
    else scanGo rest (d + 1)

/-- The swing-mode entry scan over the chronological frame. -/
def scanEntries (rows : List Row) : Int × List Signal × Bool :=
  scanGo rows.reverse 0

/-- Scan plus the "no recent entry point" fallback signal. -/
def swingScanBlock (rows : List Row) : Int × List Signal :=
  let s := scanEntries rows
  (s.1, s.2.1 ++ if s.2.2 then [] else [Signal.noRecentEntry])

/-- The swing ATR-Matrix overlay: −30 when extAtr ≥ 7, +15 when ≤ −7. -/
def atrOverlay (x : Val) : Int × List Signal :=
  if Val.ge x (Val.num 7) then (-30, [Signal.atrOverheatWarning x])
  else if Val.le x (Val.num (-7)) then (15, [Signal.atrBottomOpportunity x])
  else (0, [])

/-! ### atr mode -/

/-- The atr-mode score: initialized to 50; kept at 50 when `extAtr` is
`nan` (`pd.isna`); otherwise the step function of the source. -/
def atrScore (x : Val) : Int :=
  if x = Val.nan then 50
  else if Val.ge x (Val.num 7) then 0
  else if Val.le x (Val.num (-7)) then 90
  else if Val.gt x (Val.num 3) then 30
  else if Val.lt x (Val.num (-3)) then 70
  else 50

/-- The atr-mode signals: header, then either the insufficient-data note
or the gap read-out followed by the bucket signal. -/
def atrSignals (x : Val) : List Signal :=
  Signal.atrHeader ::
    (if x = Val.nan then [Signal.atrInsufficientData]
     else
       Signal.atrGap x ::
         (if Val.ge x (Val.num 7) then [Signal.atrForbid]
          else if Val.le x (Val.num (-7)) then [Signal.atrLifeBottom]
          else if Val.gt x (Val.num 3) then [Signal.atrMildOverheat]
          else if Val.lt x (Val.num (-3)) then [Signal.atrOversold]
          else [Signal.atrNormalTrack]))

/-! ### fibonacci mode -/

/-- Maximum of a rational list (the source takes `Series.max()` of a
nonempty 150-bar tail; the `[]` case is unreachable under the ≥ 50 gate). -/
def listMax : List ℚ → ℚ
  | [] => 0
  | x :: xs => xs.foldl max x

/-- Minimum of a rational list. -/
def listMin : List ℚ → ℚ
  | [] => 0
  | x :: xs => xs.foldl min x

/-- The trailing-150-bar slice (`df.tail(150)`). -/
def tail150 (bars : List Bar) : List Bar := bars.drop (bars.length - 150)

/-- `self.fib_high`: the trailing-150-bar high. -/
def fibHigh (bars : List Bar) : ℚ := listMax ((tail150 bars).map (fun b => b.high))

/-- `self.fib_low`: the trailing-150-bar low. -/
def fibLow (bars : List Bar) : ℚ := listMin ((tail150 bars).map (fun b => b.low))

/-! ### `QuantAnalyzer.analyze` -/

/-- The analysis mode. -/
inductive Mode where
  | swing
  | atr
  | fibonacci
deriving DecidableEq, Repr

/-- The retracement levels carried by the fibonacci-mode result. -/
structure FibLevels where
  high : ℚ
  fib236 : ℚ
  fib382 : ℚ
  fib500 : ℚ
  fib618 : ℚ
  low : ℚ
deriving DecidableEq, Repr

/-- The analysis result dict (ticker/display and the static macro string
are omitted: they are external-collaborator string plumbing). -/
structure AnalysisResult where
  lastPrice : ℚ
  score : Int
  signals : List Signal
  mode : Mode
  fib : Option FibLevels
  supplyEcho : Option SupplySnapshot
deriving DecidableEq, Repr

/-- `analyze` returns either the structured InsufficientHistory error
dict or a result dict. -/
inductive AnalyzeOutput where
  | error
  | ok (r : AnalysisResult)
deriving DecidableEq, Repr

/-- The single result-assembly site: the final score is clamped with
`min(100, max(0, score))`. -/
def mkResult (m : Mode) (cur : Row) (score : Int) (signals : List Signal)
    (fib : Option FibLevels) (supply : Option SupplySnapshot) : AnalyzeOutput :=
  AnalyzeOutput.ok
    { lastPrice := round2 cur.close
      score := min 100 (max 0 score)
      signals := signals
      mode := m
      fib := fib
      supplyEcho := supply }

/-- `QuantAnalyzer.analyze`: runs the indicator pipeline, fails with the
structured error when fewer than 50 bars exist, then dispatches on the
mode. -/
def analyze (mode : Mode) (bars : List Bar) (supply : Option SupplySnapshot) :
    AnalyzeOutput :=
  let rows := calculateIndicators supply bars
  if rows.length < 50 then AnalyzeOutput.error
  else
    let cur := rows.getD (rows.length - 1) defaultRow
    let prev := rows.getD (rows.length - 2) defaultRow
    match mode with
    | Mode.swing =>
      let scan := swingScanBlock rows
      let sup := scoreSupply supply rows
      let ov := atrOverlay cur.extAtr
      mkResult Mode.swing cur (baseScore cur prev + scan.1 + sup.1 + ov.1)
        (baseSignals cur prev ++ scan.2 ++ sup.2 ++ ov.2) none supply
    | Mode.atr =>
      mkResult Mode.atr cur (atrScore cur.extAtr) (atrSignals cur.extAtr) none supply
    | Mode.fibonacci =>
      let hi := fibHigh bars
      let lo := fibLow bars
      let diff := hi - lo
      let f236 := hi - diff * (0.236 : ℚ)
      let f382 := hi - diff * (0.382 : ℚ)
      let f500 := hi - diff * (0.500 : ℚ)
      let f618 := hi - diff * (0.618 : ℚ)
      let sc : Int :=
        if f236 ≤ cur.close then 80
        else if f382 ≤ cur.close then 70
        else if f500 ≤ cur.close then 50
        else if f618 ≤ cur.close then 30
        else 10
      let sig :=
        if f236 ≤ cur.close then Signal.fibRetest
        else if f382 ≤ cur.close then Signal.fibIdealPullback
        else if f500 ≤ cur.close then Signal.fibCrossroad
        else if f618 ≤ cur.close then Signal.fibLastLine
        else Signal.fibBreakdown
      mkResult Mode.fibonacci cur sc [Signal.fibHeader (round2 hi), sig]
        (some ⟨hi, f236, f382, f500, f618, lo⟩) supply

/-! ### Helpers for stating the claims -/

/-- The latest row of the augmented frame (`iloc[-1]`). -/
def lastRow (rows : List Row) : Row := rows.getD (rows.length - 1) defaultRow

/-- The latest raw close. -/
def lastClose (bars : List Bar) : ℚ := (bars.getD (bars.length - 1) defaultBar).close

/-- The bar `d` days before the most recent one (scan order). -/
def rowAt (rows : List Row) (d : Nat) : Row := rows.reverse.getD d defaultRow

/-- Recognizer for the short-term entry signal. -/
def isShortEntrySig : Signal → Bool
  | Signal.shortEntry _ _ _ _ => true
  | _ => false

/-- Recognizer for the VCP entry signal. -/
def isVcpEntrySig : Signal → Bool
  | Signal.vcpEntry _ _ _ _ _ => true
  | _ => false

/-- Recognizer for the MACD entry signal. -/
def isMacdEntrySig : Signal → Bool
  | Signal.macdEntry _ _ _ _ _ => true
  | _ => false

/-- Recognizer for the multi-pattern combo signal. -/
def isComboSig : Signal → Bool
  | Signal.comboHit _ _ => true
  | _ => false

/-- Recognizer for the distribution warning of the supply turnover block. -/
def isValueDistributionSig : Signal → Bool
  | Signal.valueDistribution _ => true
  | _ => false

/-! ### Concrete inputs for witnesses and counterexamples -/

/-- A featureless bar: constant price 10, volume 100. -/
def flatBar (d : Nat) : Bar := ⟨d, 10, 10, 10, 10, 100⟩

/-- 50 identical bars: enough history, but every range and delta is zero,
so `ATR = 0` and `extAtr` is `nan`. -/
def flatBars50 : List Bar := (List.range 50).map flatBar

/-- 40 identical bars: below the 50-bar history precondition. -/
def flatBars40 : List Bar := (List.range 40).map flatBar

/-- 50 bars at close 88 whose first bar spans high 100 / low 50: the
fibonacci example of the specification (diff 50, close 88). -/
def fibExampleBars : List Bar :=
  ⟨0, 88, 100, 50, 88, 100⟩ :: (List.range 49).map (fun d => ⟨d + 1, 88, 88, 88, 88, 100⟩)

/-- 60 flat bars with a 10× volume spike on the last bar: on the latest
row both the volume tier (+5) and the top turnover tier (+15) fire. -/
def volSpikeBars : List Bar :=
  (List.range 59).map flatBar ++ [⟨59, 10, 10, 10, 10, 1000⟩]

/-- 60 flat bars whose last bar is a bullish candle with a 10× volume
spike: the latest row has `value_ratio ≥ 2` and `Close > Open`. -/
def bullSpikeBars : List Bar :=
  (List.range 59).map flatBar ++ [⟨59, 10, 10.5, 10, 10.5, 1000⟩]

/-- Two bars with a single up-move: at bar 1 the smoothed loss is 0 while
the smoothed gain is positive, so RSI saturates at 100. -/
def upBars : List Bar := [⟨0, 10, 10, 10, 10, 100⟩, ⟨1, 11, 11, 11, 11, 100⟩]

/-- A quiet augmented row: no buy-signal variant fires. -/
def quietRow : Row :=
  { openPrice := 10, high := 10, low := 10, close := 10, volume := 100
    ema21 := Val.num 10, ema50 := Val.num 10, ema200 := Val.num 10
    sma50 := Val.num 10, rsi := Val.nan, atr := Val.num 0
    volSma20 := Val.num 100, vr := Val.num 1, macdHist := Val.num 0
    extAtr := Val.nan
    buyShort := false, buySwingMacd := false, buySwingVcp := false }

/-- A row on which only the short-term buy variant fires. -/
def shortHitRow : Row := { quietRow with buyShort := true }

/-- A row on which the short-term and VCP variants fire together. -/
def vcpShortHitRow : Row := { quietRow with buyShort := true, buySwingVcp := true }

/-- A frame whose only qualifying bar sits exactly 30 positions before
the most recent bar, i.e. just outside the 30 most recent bars. -/
def edgeHitRows : List Row := shortHitRow :: List.replicate 30 quietRow

/-- The truthy-but-all-empty snapshot
`{"investor_trend": [], "short_balance": {}, "trade_value_map": {}}`. -/
def emptySnap : SupplySnapshot := ⟨[], none, []⟩

/-- Every cell of the column is finite or `nan` (no infinities). -/
def NumOrNan (l : List Val) : Prop :=
  ∀ v ∈ l, (∃ q : ℚ, v = Val.num q) ∨ v = Val.nan

/-- Every cell of the column is a nonnegative finite value. -/
def NumsNonneg (l : List Val) : Prop :=
  ∀ v ∈ l, ∃ q : ℚ, v = Val.num q ∧ 0 ≤ q

/-! ## Theorems -/

attribute [local semireducible] Rat.add Rat.mul Rat.sub Rat.inv Rat.ofScientific

/-- The augmented frame has one row per input bar. -/
theorem calcIndicators_length (s : Option SupplySnapshot) (bars : List Bar) :
    (calculateIndicators s bars).length = bars.length := by
  simp [calculateIndicators]

/-- Row access of the augmented frame below the length is `mkRow`. -/
theorem calcIndicators_getD (s : Option SupplySnapshot) (bars : List Bar) (i : Nat)
    (h : i < bars.length) :
    (calculateIndicators s bars).getD i defaultRow = mkRow s bars i := by
  simp [calculateIndicators, List.getD_eq_getElem?_getD, List.getElem?_map,
    List.getElem?_range, h]

/-- Any output of the single result-assembly site carries a clamped score. -/
theorem mkResult_score_bounds (m : Mode) (cur : Row) (s : Int) (sg : List Signal)
    (f : Option FibLevels) (sp : Option SupplySnapshot) (r : AnalysisResult)
    (h : mkResult m cur s sg f sp = AnalyzeOutput.ok r) :
    0 ≤ r.score ∧ r.score ≤ 100 := by
  simp only [mkResult, AnalyzeOutput.ok.injEq] at h
  subst h
  exact ⟨le_min (by norm_num) (le_max_left _ _), min_le_left _ _⟩

/-- C1: for every input series, mode and snapshot, a produced
`AnalysisResult` has its final score clamped to the interval [0, 100],
regardless of the intermediate deltas accumulated during scoring. -/
theorem C1_score_clamped (mode : Mode) (bars : List Bar)
    (supply : Option SupplySnapshot) (r : AnalysisResult)
    (h : analyze mode bars supply = AnalyzeOutput.ok r) :
    0 ≤ r.score ∧ r.score ≤ 100 := by
  cases mode <;>
    (simp only [analyze] at h
     split at h
     · simp at h
     · exact mkResult_score_bounds _ _ _ _ _ _ _ h)

/-- C1 witness: a 50-bar flat series in atr mode yields a result whose
score obeys the clamp bounds. -/
theorem C1_score_clamped_witness :
    ∃ r, analyze Mode.atr flatBars50 none = AnalyzeOutput.ok r ∧
      0 ≤ r.score ∧ r.score ≤ 100 := by
  refine ⟨_, rfl, ?_⟩
  exact C1_score_clamped Mode.atr flatBars50 none _ rfl

/-- C2: with fewer than 50 bars (the empty series included), `analyze`
returns the structured InsufficientHistory error in every mode — no
score, no partial result (the embedding is a total function, so no
exception can escape). -/
theorem C2_insufficient_history (mode : Mode) (bars : List Bar)
    (supply : Option SupplySnapshot) (h : bars.length < 50) :
    analyze mode bars supply = AnalyzeOutput.error := by
  cases mode <;> simp [analyze, calcIndicators_length, h]

/-- C2 witness: a 40-bar series in swing mode returns the structured error. -/
theorem C2_insufficient_history_witness :
    analyze Mode.swing flatBars40 none = AnalyzeOutput.error :=
  C2_insufficient_history Mode.swing flatBars40 none (by decide)

/-- Inside the window, a non-qualifying bar is skipped and `days_ago`
advances. -/
theorem scanGo_skip (r : Row) (rest : List Row) (d : Nat) (hd : d ≤ 30)
    (hr : hitAny r = false) : scanGo (r :: rest) d = scanGo rest (d + 1) := by
  simp [scanGo, Nat.not_lt.mpr hd, hr]

/-- Inside the window, a qualifying bar stops the scan with its delta and
signals. -/
theorem scanGo_hit (r : Row) (rest : List Row) (d : Nat) (hd : d ≤ 30)
    (hr : hitAny r = true) :
    scanGo (r :: rest) d = (hitDelta r d, hitSignals r d, true) := by
  simp [scanGo, Nat.not_lt.mpr hd, hr]

/-- The scan loop stops exactly at the first qualifying position. -/
theorem scanGo_first_hit (l : List Row) (c d : Nat) (hcd : c + d ≤ 30)
    (hd : d < l.length)
    (hfirst : ∀ e, e < d → hitAny (l.getD e defaultRow) = false)
    (hhit : hitAny (l.getD d defaultRow) = true) :
    scanGo l c = (hitDelta (l.getD d defaultRow) (c + d),
      hitSignals (l.getD d defaultRow) (c + d), true) := by
  induction l generalizing c d with
  | nil => simp at hd
  | cons r rest ih =>
    cases d with
    | zero =>
      simp only [List.getD_cons_zero] at hhit ⊢
      simpa using scanGo_hit r rest c (by omega) hhit
    | succ d' =>
      have h0 : hitAny r = false := by simpa using hfirst 0 (Nat.succ_pos d')
      rw [scanGo_skip r rest c (by omega) h0]
      have hrec := ih (c + 1) d' (by omega) (by simpa using hd)
        (fun e he => by simpa using hfirst (e + 1) (by omega))
        (by simpa using hhit)
      rw [show c + (d' + 1) = (c + 1) + d' by omega]
      simpa using hrec

/-- With no qualifying bar inside the window, the scan returns no delta,
no signals and a false found-flag. -/
theorem scanGo_no_hit (l : List Row) (c : Nat)
    (h : ∀ e, e < l.length → c + e ≤ 30 → hitAny (l.getD e defaultRow) = false) :
    scanGo l c = (0, [], false) := by
  induction l generalizing c with
  | nil => simp [scanGo]
  | cons r rest ih =>
    by_cases hc : 30 < c
    · simp [scanGo, hc]
    · have h0 : hitAny r = false := by simpa using h 0 (by simp) (by omega)
      rw [scanGo_skip r rest c (by omega) h0]
      exact ih (c + 1) (fun e he hce => by
        simpa using h (e + 1) (by simpa using Nat.succ_lt_succ he) (by omega))

/-- C3 counterexample: a frame whose only qualifying bar lies exactly 30
positions before the most recent bar.  None of the 30 most recent bars
("the last 30 bars") qualifies, yet the scan still finds the entry and
the "no recent entry point" signal is *not* emitted — the code's window
is `days_ago ≤ 30`, i.e. 31 bars, not 30. -/
theorem C3_window_counterexample :
    (∀ d, d < 30 → hitAny (rowAt edgeHitRows d) = false) ∧
    (scanEntries edgeHitRows).2.2 = true ∧
    Signal.noRecentEntry ∉ (swingScanBlock edgeHitRows).2 := by decide

/-- C3 (amended): the swing backward scan runs over the 31 bars at most
30 positions before the most recent bar; it stops at the first (most
recent) qualifying bar, the combo bonus `comboCount × 15` is added iff
that bar is the most recent one, and when no bar of that window
qualifies, the single "no recent entry point" signal is emitted. -/
theorem C3_scan_first_hit (rows : List Row) :
    (∀ d, d ≤ 30 → d < rows.length →
      (∀ e, e < d → hitAny (rowAt rows e) = false) →
      hitAny (rowAt rows d) = true →
      scanEntries rows =
        ((if d = 0 then (comboCountOf (rowAt rows d) : Int) * 15 else 0),
          hitSignals (rowAt rows d) d, true)) ∧
    ((∀ d, d ≤ 30 → d < rows.length → hitAny (rowAt rows d) = false) →
      swingScanBlock rows = (0, [Signal.noRecentEntry])) := by
  constructor
  · intro d hd hlen hfirst hhit
    have hmain := scanGo_first_hit rows.reverse 0 d (by omega)
      (by simpa using hlen) (fun e he => hfirst e he) hhit
    simpa [scanEntries, rowAt, hitDelta] using hmain
  · intro h
    have hmain := scanGo_no_hit rows.reverse 0
      (fun e he _ => h e (by omega) (by simpa using he))
    simp [swingScanBlock, scanEntries, hmain]

/-- C3 witness: on a single-row frame whose row fires two variants, the
scan stops at `days_ago = 0` and pays the combo bonus. -/
theorem C3_scan_first_hit_witness :
    scanEntries [vcpShortHitRow] =
      ((if 0 = 0 then (comboCountOf (rowAt [vcpShortHitRow] 0) : Int) * 15 else 0),
        hitSignals (rowAt [vcpShortHitRow] 0) 0, true) :=
  (C3_scan_first_hit [vcpShortHitRow]).1 0 (by omega) (by decide)
    (fun e he => absurd he (Nat.not_lt_zero e)) (by decide)

/-- C8 counterexample: on a bar where the short-term and VCP variants
fire together, no short-term entry signal is emitted — the source
suppresses it whenever VCP or MACD also fired that day. -/
theorem C8_short_signal_counterexample :
    vcpShortHitRow.buyShort = true ∧
    (scanEntries [vcpShortHitRow]).2.2 = true ∧
    ((scanEntries [vcpShortHitRow]).2.1.any isShortEntrySig) = false := by decide

/-- C8 (amended): on the qualifying bar the scan emits one signal per
true variant for VCP and MACD-swing, emits the short-term signal only
when neither of the other two fired, and emits the combined
multi-pattern signal iff more than one variant is true. -/
theorem C8_hit_signal_emission (r : Row) (d : Nat) (h : hitAny r = true) :
    ((hitSignals r d).any isVcpEntrySig = r.buySwingVcp) ∧
    ((hitSignals r d).any isMacdEntrySig = r.buySwingMacd) ∧
    ((hitSignals r d).any isShortEntrySig =
      (r.buyShort && !(r.buySwingVcp || r.buySwingMacd))) ∧
    ((hitSignals r d).any isComboSig = decide (1 < comboCountOf r)) := by
  cases hv : r.buySwingVcp <;> cases hm : r.buySwingMacd <;> cases hs : r.buyShort <;>
    simp_all [hitSignals, comboCountOf, hitAny, isVcpEntrySig, isMacdEntrySig,
      isShortEntrySig, isComboSig]

/-- C8 witness: the emission pattern evaluated on the two-variant row. -/
theorem C8_hit_signal_emission_witness :
    ((hitSignals vcpShortHitRow 0).any isVcpEntrySig = vcpShortHitRow.buySwingVcp) ∧
    ((hitSignals vcpShortHitRow 0).any isMacdEntrySig = vcpShortHitRow.buySwingMacd) ∧
    ((hitSignals vcpShortHitRow 0).any isShortEntrySig =
      (vcpShortHitRow.buyShort &&
        !(vcpShortHitRow.buySwingVcp || vcpShortHitRow.buySwingMacd))) ∧
    ((hitSignals vcpShortHitRow 0).any isComboSig =
      decide (1 < comboCountOf vcpShortHitRow)) :=
  C8_hit_signal_emission vcpShortHitRow 0 (by decide)

/-- C7 counterexample: on a real series whose last bar both lifts the
volume above its 20-day average and pushes the turnover ratio past 2,
the volume tier (+5) and the turnover tier (+15) both fire, so the two
tiers together contribute +20 > +15 to the swing base score. -/
theorem C7_tier_sum_counterexample :
    volumeDelta (lastRow (calculateIndicators none volSpikeBars)) +
        valueTierDelta (lastRow (calculateIndicators none volSpikeBars)) = 20 ∧
    ¬(volumeDelta (lastRow (calculateIndicators none volSpikeBars)) +
        valueTierDelta (lastRow (calculateIndicators none volSpikeBars)) ≤ 15) := by
  decide

/-- C7 (amended): on every row the combined contribution of the volume
strength tier and the turnover strength tier to the swing base score is
at most +20 (at most +5 from volume and at most +15 from turnover). -/
theorem C7_tier_sum_bound (r : Row) : volumeDelta r + valueTierDelta r ≤ 20 := by
  unfold volumeDelta valueTierDelta
  split_ifs <;> omega

/-- C9 counterexample: `_score_supply` applied to the truthy snapshot all
of whose fields are empty still returns a nonzero delta with a signal on
an indicator series whose latest bar is a bullish candle with turnover
ratio ≥ 2 — the turnover block reads the indicator frame, not the
snapshot. -/
theorem C9_empty_snapshot_counterexample :
    scoreSupply (some emptySnap) (calculateIndicators (some emptySnap) bullSpikeBars) =
      (15, [Signal.valueExplosion (Val.num (420 / 59))]) ∧
    scoreSupply (some emptySnap) (calculateIndicators (some emptySnap) bullSpikeBars) ≠
      (0, []) := by decide

/-- C9 (amended): an absent (falsy) snapshot short-circuits to delta 0
and no signals on every indicator series; the truthy all-empty snapshot
contributes nothing from the investor-trend and short blocks, but the
turnover block still applies, driven by the indicator series alone. -/
theorem C9_empty_snapshot (rows : List Row) :
    scoreSupply none rows = (0, []) ∧
    scoreSupply (some emptySnap) rows = valueBlock rows := by
  refine ⟨rfl, ?_⟩
  simp [scoreSupply, emptySnap, trendBlock, shortBlock]

/-- C10: in the supply scorer's turnover block, the +15 and +8 deltas
require the latest close to be strictly greater than the latest open,
and a turnover ratio ≥ 2 on a non-bullish latest bar contributes −10
with the distribution warning signal instead. -/
theorem C10_turnover_gating (rows : List Row) (r : Row)
    (h : rows.getLast? = some r) :
    ((valueBlock rows).1 = 15 ↔
      (Val.ge r.vr (Val.num 2) = true ∧ r.openPrice < r.close)) ∧
    ((valueBlock rows).1 = 8 ↔
      (Val.ge r.vr (Val.num (1.5 : ℚ)) = true ∧ Val.ge r.vr (Val.num 2) = false ∧
        r.openPrice < r.close)) ∧
    ((Val.ge r.vr (Val.num 2) = true ∧ ¬(r.openPrice < r.close)) →
      valueBlock rows = (-10, [Signal.valueDistribution r.vr])) := by
  have hv : valueBlock rows = valueBlockOf r.vr (decide (r.openPrice < r.close)) := by
    simp [valueBlock, h]
  rw [hv]
  by_cases h2 : Val.ge r.vr (Val.num 2) = true <;>
    by_cases h15 : Val.ge r.vr (Val.num (1.5 : ℚ)) = true <;>
      by_cases hb : r.openPrice < r.close <;>
        simp [valueBlockOf, h2, h15, hb]

/-- C10 witness: the gating evaluated on a single-row frame with
turnover ratio 1 and a flat candle. -/
theorem C10_turnover_gating_witness :
    ((valueBlock [quietRow]).1 = 15 ↔
      (Val.ge quietRow.vr (Val.num 2) = true ∧ quietRow.openPrice < quietRow.close)) ∧
    ((valueBlock [quietRow]).1 = 8 ↔
      (Val.ge quietRow.vr (Val.num (1.5 : ℚ)) = true ∧
        Val.ge quietRow.vr (Val.num 2) = false ∧
        quietRow.openPrice < quietRow.close)) ∧
    ((Val.ge quietRow.vr (Val.num 2) = true ∧ ¬(quietRow.openPrice < quietRow.close)) →
      valueBlock [quietRow] = (-10, [Signal.valueDistribution quietRow.vr])) :=
  C10_turnover_gating [quietRow] quietRow (by decide)

/-- C4 counterexample: on a 50-bar flat series `extAtr` of the latest bar
is undefined (`nan`), yet atr mode still produces the numeric score 50 in
its result — not "no numeric score". -/
theorem C4_undefined_score_counterexample :
    (extAtrCol flatBars50).getD 49 Val.nan = Val.nan ∧
    (∃ r, analyze Mode.atr flatBars50 none = AnalyzeOutput.ok r ∧ r.score = 50) :=
  ⟨by decide, ⟨_, rfl, by decide⟩⟩

/-- C4 (amended): the atr-mode score is the step function of `extAtr` on
the latest bar — ≥ 7 → 0, ≤ −7 → 90, in (3, 7) → 30, in (−7, −3) → 70,
in [−3, 3] → 50 — and an undefined `extAtr` keeps the default score 50
with only the informational signal. -/
theorem C4_step_function :
    atrScore Val.nan = 50 ∧
    atrSignals Val.nan = [Signal.atrHeader, Signal.atrInsufficientData] ∧
    (∀ q : ℚ,
      ((7 : ℚ) ≤ q → atrScore (Val.num q) = 0) ∧
      (q ≤ -7 → atrScore (Val.num q) = 90) ∧
      ((3 : ℚ) < q → q < 7 → atrScore (Val.num q) = 30) ∧
      (q < -3 → (-7 : ℚ) < q → atrScore (Val.num q) = 70) ∧
      ((-3 : ℚ) ≤ q → q ≤ 3 → atrScore (Val.num q) = 50)) := by
  refine ⟨rfl, rfl, fun q => ⟨?_, ?_, ?_, ?_, ?_⟩⟩ <;>
    (intros
     simp only [atrScore, Val.ge, Val.le, Val.gt, Val.lt]
     split_ifs <;> first | rfl | (simp_all <;> linarith))

/-- C4 witness: the test values of the specification, extAtr = 8, −8, 0. -/
theorem C4_step_function_witness :
    atrScore (Val.num 8) = 0 ∧ atrScore (Val.num (-8)) = 90 ∧
      atrScore (Val.num 0) = 50 :=
  ⟨(C4_step_function.2.2 8).1 (by norm_num),
   (C4_step_function.2.2 (-8)).2.1 (by norm_num),
   (C4_step_function.2.2 0).2.2.2.2 (by norm_num) (by norm_num)⟩

/-- C5: in fibonacci mode the retracement levels are
`high − diff·r` for r ∈ {0.236, 0.382, 0.500, 0.618} with high/low the
trailing-150-bar extremes; the latest close is bucketed against the
levels highest-to-lowest into the scores 80/70/50/30/10, and the result
carries the retracement price levels. -/
theorem C5_fibonacci_buckets (bars : List Bar) (supply : Option SupplySnapshot)
    (h : 50 ≤ bars.length) :
    ∃ r, analyze Mode.fibonacci bars supply = AnalyzeOutput.ok r ∧
      r.fib = some ⟨fibHigh bars,
        fibHigh bars - (fibHigh bars - fibLow bars) * (0.236 : ℚ),
        fibHigh bars - (fibHigh bars - fibLow bars) * (0.382 : ℚ),
        fibHigh bars - (fibHigh bars - fibLow bars) * (0.500 : ℚ),
        fibHigh bars - (fibHigh bars - fibLow bars) * (0.618 : ℚ),
        fibLow bars⟩ ∧
      r.score =
        (if fibHigh bars - (fibHigh bars - fibLow bars) * (0.236 : ℚ) ≤ lastClose bars
         then 80
         else if fibHigh bars - (fibHigh bars - fibLow bars) * (0.382 : ℚ) ≤ lastClose bars
         then 70
         else if fibHigh bars - (fibHigh bars - fibLow bars) * (0.500 : ℚ) ≤ lastClose bars
         then 50
         else if fibHigh bars - (fibHigh bars - fibLow bars) * (0.618 : ℚ) ≤ lastClose bars
         then 30
         else 10) := by
  have hlen : ¬ (calculateIndicators supply bars).length < 50 := by
    rw [calcIndicators_length]; omega
  have hclose :
      ((calculateIndicators supply bars).getD
        ((calculateIndicators supply bars).length - 1) defaultRow).close =
        lastClose bars := by
    rw [calcIndicators_length, calcIndicators_getD supply bars _ (by omega)]
    simp [mkRow, lastClose]
  set cur : Row :=
    (calculateIndicators supply bars).getD
      ((calculateIndicators supply bars).length - 1) defaultRow with hcur
  refine ⟨{ lastPrice := round2 cur.close
            score := min 100 (max 0
              (if fibHigh bars - (fibHigh bars - fibLow bars) * (0.236 : ℚ) ≤ cur.close
               then 80
               else if fibHigh bars - (fibHigh bars - fibLow bars) * (0.382 : ℚ) ≤
                  cur.close then 70
               else if fibHigh bars - (fibHigh bars - fibLow bars) * (0.500 : ℚ) ≤
                  cur.close then 50
               else if fibHigh bars - (fibHigh bars - fibLow bars) * (0.618 : ℚ) ≤
                  cur.close then 30
               else 10))
            signals := [Signal.fibHeader (round2 (fibHigh bars)),
              if fibHigh bars - (fibHigh bars - fibLow bars) * (0.236 : ℚ) ≤ cur.close
              then Signal.fibRetest
              else if fibHigh bars - (fibHigh bars - fibLow bars) * (0.382 : ℚ) ≤
                 cur.close then Signal.fibIdealPullback
              else if fibHigh bars - (fibHigh bars - fibLow bars) * (0.500 : ℚ) ≤
                 cur.close then Signal.fibCrossroad
              else if fibHigh bars - (fibHigh bars - fibLow bars) * (0.618 : ℚ) ≤
                 cur.close then Signal.fibLastLine
              else Signal.fibBreakdown]
            mode := Mode.fibonacci
            fib := some ⟨fibHigh bars,
              fibHigh bars - (fibHigh bars - fibLow bars) * (0.236 : ℚ),
              fibHigh bars - (fibHigh bars - fibLow bars) * (0.382 : ℚ),
              fibHigh bars - (fibHigh bars - fibLow bars) * (0.500 : ℚ),
              fibHigh bars - (fibHigh bars - fibLow bars) * (0.618 : ℚ),
              fibLow bars⟩
            supplyEcho := supply }, ?_, rfl, ?_⟩
  · simp only [analyze]
    rw [if_neg hlen]
    rfl
  · dsimp only
    rw [hcur, hclose]
    split_ifs <;> omega

/-- `ewm` preserves the column length. -/
theorem ewmMeanGo_length (a : ℚ) (st : Option ℚ) (l : List Val) :
    (ewmMeanGo a st l).length = l.length := by
  induction l generalizing st with
  | nil => cases st <;> rfl
  | cons x rest ih => cases st <;> cases x <;> simp [ewmMeanGo, ih]

/-- `ewmMean` preserves the column length. -/
theorem ewmMean_length (a : ℚ) (l : List Val) : (ewmMean a l).length = l.length :=
  ewmMeanGo_length a none l

/-- `shift(1)` preserves the column length. -/
theorem shift1_length (xs : List Val) : (shift1 xs).length = xs.length := by
  simp [shift1]

/-- The close column has one cell per bar. -/
theorem closeValCol_length (bars : List Bar) :
    (closeValCol bars).length = bars.length := by
  simp [closeValCol, liftCol]

/-- The delta column has one cell per bar. -/
theorem deltaCol_length (bars : List Bar) : (deltaCol bars).length = bars.length := by
  simp [deltaCol, diffCol, shift1_length, closeValCol_length]

/-- The smoothed-gain column has one cell per bar. -/
theorem gainCol_length (bars : List Bar) : (gainCol bars).length = bars.length := by
  simp [gainCol, gainInCol, ewmMean_length, deltaCol_length]

/-- The smoothed-loss column has one cell per bar. -/
theorem lossCol_length (bars : List Bar) : (lossCol bars).length = bars.length := by
  simp [lossCol, lossInCol, ewmMean_length, deltaCol_length]

/-- The RSI column has one cell per bar. -/
theorem rsiCol_length (bars : List Bar) : (rsiCol bars).length = bars.length := by
  simp [rsiCol, rsiColWith, rsColW, gainCol_length, lossCol_length]

/-- Raw close cells are finite. -/
theorem closeValCol_numOrNan (bars : List Bar) : NumOrNan (closeValCol bars) := by
  intro v hv
  rw [closeValCol, liftCol] at hv
  rcases List.mem_map.mp hv with ⟨q, _, rfl⟩
  exact Or.inl ⟨q, rfl⟩

/-- `shift(1)` preserves finite-or-`nan`. -/
theorem shift1_numOrNan (xs : List Val) (h : NumOrNan xs) : NumOrNan (shift1 xs) := by
  intro v hv
  have hv2 : v ∈ Val.nan :: xs := List.take_subset _ _ hv
  rcases List.mem_cons.mp hv2 with rfl | hmem
  · exact Or.inr rfl
  · exact h v hmem

/-- Subtraction of finite-or-`nan` cells is finite-or-`nan`. -/
theorem sub_numOrNan (a b : Val)
    (ha : (∃ q : ℚ, a = Val.num q) ∨ a = Val.nan)
    (hb : (∃ q : ℚ, b = Val.num q) ∨ b = Val.nan) :
    (∃ q : ℚ, Val.sub a b = Val.num q) ∨ Val.sub a b = Val.nan := by
  rcases ha with ⟨x, rfl⟩ | rfl <;> rcases hb with ⟨y, rfl⟩ | rfl <;>
    simp [Val.sub, Val.add, Val.neg]

/-- The delta column is finite-or-`nan`. -/
theorem deltaCol_numOrNan (bars : List Bar) : NumOrNan (deltaCol bars) := by
  intro v hv
  rw [deltaCol, diffCol] at hv
  rw [List.mem_iff_getElem] at hv
  obtain ⟨i, hi, rfl⟩ := hv
  rw [List.getElem_zipWith]
  exact sub_numOrNan _ _
    (closeValCol_numOrNan bars _ (List.getElem_mem _))
    (shift1_numOrNan _ (closeValCol_numOrNan bars) _ (List.getElem_mem _))

/-- The raw gain column is finite and nonnegative everywhere. -/
theorem gainInCol_nonneg (bars : List Bar) : NumsNonneg (gainInCol bars) := by
  intro v hv
  rw [gainInCol] at hv
  rcases List.mem_map.mp hv with ⟨w, hw, rfl⟩
  rcases deltaCol_numOrNan bars w hw with ⟨q, rfl⟩ | rfl
  · by_cases hq : (0 : ℚ) < q
    · exact ⟨q, by simp [Val.gt, Val.lt, hq], le_of_lt hq⟩
    · exact ⟨0, by simp [Val.gt, Val.lt, hq], le_refl 0⟩
  · exact ⟨0, by simp [Val.gt, Val.lt], le_refl 0⟩

/-- The raw loss column is finite and nonnegative everywhere. -/
theorem lossInCol_nonneg (bars : List Bar) : NumsNonneg (lossInCol bars) := by
  intro v hv
  rw [lossInCol] at hv
  rcases List.mem_map.mp hv with ⟨w, hw, rfl⟩
  rcases deltaCol_numOrNan bars w hw with ⟨q, rfl⟩ | rfl
  · by_cases hq : q < 0
    · exact ⟨-q, by simp [Val.lt, Val.neg, hq], by linarith⟩
    · exact ⟨0, by simp [Val.lt, hq], le_refl 0⟩
  · exact ⟨0, by simp [Val.lt], le_refl 0⟩

/-- Wilder smoothing of a nonnegative finite column stays nonnegative
finite (the smoothing factor lies in [0, 1]). -/
theorem ewmMeanGo_nonneg (a : ℚ) (ha0 : 0 ≤ a) (ha1 : a ≤ 1) (l : List Val) :
    ∀ st : Option ℚ, NumsNonneg l → (∀ p, st = some p → 0 ≤ p) →
      NumsNonneg (ewmMeanGo a st l) := by
  induction l with
  | nil => intro st _ _ v hv; simp [ewmMeanGo] at hv
  | cons x rest ih =>
    intro st hl hst v hv
    obtain ⟨q, rfl, hq⟩ := hl x (List.mem_cons_self x rest)
    have hrest : NumsNonneg rest := fun w hw => hl w (List.mem_cons_of_mem _ hw)
    cases st with
    | none =>
      simp only [ewmMeanGo] at hv
      rcases List.mem_cons.mp hv with rfl | hv2
      · exact ⟨q, rfl, hq⟩
      · exact ih (some q) hrest (fun p hp => by cases hp; exact hq) v hv2
    | some p =>
      have hp : 0 ≤ p := hst p rfl
      have hnew : 0 ≤ a * q + (1 - a) * p := by
        have h1 := mul_nonneg ha0 hq
        have h2 := mul_nonneg (by linarith : (0 : ℚ) ≤ 1 - a) hp
        linarith
      simp only [ewmMeanGo] at hv
      rcases List.mem_cons.mp hv with rfl | hv2
      · exact ⟨_, rfl, hnew⟩
      · exact ih (some _) hrest (fun p2 hp2 => by cases hp2; exact hnew) v hv2

/-- The smoothed gain is finite and nonnegative everywhere. -/
theorem gainCol_nonneg (bars : List Bar) : NumsNonneg (gainCol bars) :=
  ewmMeanGo_nonneg _ (by norm_num) (by norm_num) _ none (gainInCol_nonneg bars)
    (fun _ hp => by cases hp)

/-- The smoothed loss is finite and nonnegative everywhere. -/
theorem lossCol_nonneg (bars : List Bar) : NumsNonneg (lossCol bars) :=
  ewmMeanGo_nonneg _ (by norm_num) (by norm_num) _ none (lossInCol_nonneg bars)
    (fun _ hp => by cases hp)

/-- C6 counterexample: the zero-loss RSI saturation is *not* produced by
an explicit branch — it is inherited from the host's division-by-zero
semantics.  On the two-bar up-move, bar 1 has smoothed loss 0 and RSI
exactly 100 under the NumPy convention (`positive/0 = +inf`); under a
host where `x/0 = 0` the very same computation would yield RSI 0, so the
computation does depend on the host's division-by-zero semantics. -/
theorem C6_host_semantics_counterexample :
    (lossCol upBars).getD 1 Val.nan = Val.num 0 ∧
    (rsiCol upBars).getD 1 Val.nan = Val.num 100 ∧
    (rsiColWith (fun _ => Val.num 0) upBars).getD 1 Val.nan = Val.num 0 := by decide

/-- C6 (amended): wherever RSI is defined it lies in [0, 100], and it
equals exactly 100 precisely when the Wilder-smoothed loss is zero; the
zero-loss saturation arises from the host's IEEE division semantics
(`positive/0 = +inf`), not from an explicit branch in the code. -/
theorem C6_rsi_bounds (bars : List Bar) (i : Nat) (q : ℚ)
    (h : (rsiCol bars).getD i Val.nan = Val.num q) :
    0 ≤ q ∧ q ≤ 100 ∧ (q = 100 ↔ (lossCol bars).getD i Val.nan = Val.num 0) := by
  by_cases hi : i < bars.length
  case neg =>
    rw [List.getD_eq_default _ _ (by rw [rsiCol_length]; omega)] at h
    simp at h
  case pos =>
    have hig : i < (gainCol bars).length := by rw [gainCol_length]; exact hi
    have hil : i < (lossCol bars).length := by rw [lossCol_length]; exact hi
    have hirs : i < (rsiCol bars).length := by rw [rsiCol_length]; exact hi
    rw [List.getD_eq_getElem _ _ hirs] at h
    rw [List.getD_eq_getElem _ _ hil]
    have hrsi : (rsiCol bars)[i] = rsiOfW Val.numDivZero
        (Val.divW Val.numDivZero ((gainCol bars)[i]) ((lossCol bars)[i])) := by
      simp [rsiCol, rsiColWith, rsColW, List.getElem_map, List.getElem_zipWith]
    rw [hrsi] at h
    obtain ⟨a, hga, ha⟩ := gainCol_nonneg bars _ (List.getElem_mem hig)
    obtain ⟨b, hlb, hb⟩ := lossCol_nonneg bars _ (List.getElem_mem hil)
    rw [hga, hlb] at h
    rw [hlb]
    rcases eq_or_lt_of_le hb with hb0 | hbpos
    · rcases eq_or_lt_of_le ha with ha0 | hapos
      · rw [← hb0, ← ha0] at h
        simp [rsiOfW, Val.divW, Val.numDivZero, Val.add, Val.sub, Val.neg] at h
      · rw [← hb0] at h ⊢
        simp [rsiOfW, Val.divW, Val.numDivZero, Val.add, Val.sub, Val.neg, hapos] at h
        refine ⟨by linarith, by linarith, ?_⟩
        simp [← h]
    · have hbne : b ≠ 0 := ne_of_gt hbpos
      have hx : 0 ≤ a / b := div_nonneg ha (le_of_lt hbpos)
      have h1x : (0 : ℚ) < 1 + a / b := by linarith
      simp only [rsiOfW, Val.divW, Val.numDivZero, Val.add, Val.sub, Val.neg,
        if_neg hbne, if_neg (ne_of_gt h1x), Val.num.injEq] at h
      have hdpos : 0 < 100 / (1 + a / b) :=
        div_pos (by norm_num) h1x
      have hdle : 100 / (1 + a / b) ≤ 100 := by
        rw [div_le_iff₀ h1x]
        nlinarith
      refine ⟨by linarith, by linarith, ?_⟩
      constructor
      · intro h100
        exfalso
        rw [← h] at h100
        linarith
      · intro hbeq
        exfalso
        rw [Val.num.injEq] at hbeq
        exact hbne hbeq

/-- C6 witness: on the two-bar up-move, bar 1 has RSI exactly 100 and
the bounds and the zero-loss equivalence hold there. -/
theorem C6_rsi_bounds_witness :
    (0 : ℚ) ≤ 100 ∧ (100 : ℚ) ≤ 100 ∧
      ((100 : ℚ) = 100 ↔ (lossCol upBars).getD 1 Val.nan = Val.num 0) :=
  C6_rsi_bounds upBars 1 100 (by decide)

/-- C5 witness: the specification's example — high 100, low 50 (diff 50),
close 88 falls below the 23.6% level 88.2 and at or above the 38.2%
level 80.9, scoring 70. -/
theorem C5_fibonacci_buckets_witness :
    ∃ r, analyze Mode.fibonacci fibExampleBars none = AnalyzeOutput.ok r ∧
      r.fib = some ⟨fibHigh fibExampleBars,
        fibHigh fibExampleBars -
          (fibHigh fibExampleBars - fibLow fibExampleBars) * (0.236 : ℚ),
        fibHigh fibExampleBars -
          (fibHigh fibExampleBars - fibLow fibExampleBars) * (0.382 : ℚ),
        fibHigh fibExampleBars -
          (fibHigh fibExampleBars - fibLow fibExampleBars) * (0.500 : ℚ),
        fibHigh fibExampleBars -
          (fibHigh fibExampleBars - fibLow fibExampleBars) * (0.618 : ℚ),
        fibLow fibExampleBars⟩ ∧
      r.score =
        (if fibHigh fibExampleBars -
            (fibHigh fibExampleBars - fibLow fibExampleBars) * (0.236 : ℚ) ≤
            lastClose fibExampleBars
         then 80
         else if fibHigh fibExampleBars -
            (fibHigh fibExampleBars - fibLow fibExampleBars) * (0.382 : ℚ) ≤
            lastClose fibExampleBars
         then 70
         else if fibHigh fibExampleBars -
            (fibHigh fibExampleBars - fibLow fibExampleBars) * (0.500 : ℚ) ≤
            lastClose fibExampleBars
         then 50
         else if fibHigh fibExampleBars -
            (fibHigh fibExampleBars - fibLow fibExampleBars) * (0.618 : ℚ) ≤
            lastClose fibExampleBars
         then 30
         else 10) :=
  C5_fibonacci_buckets fibExampleBars none (by decide)

